import Mathlib

/-!
Verification of the `guardarLectura` Azure Function
(`ProyectoRFID/guardarLectura/__init__.py`).

The handler is embedded as a pure function.  The pieces that Python leaves
implicit are made explicit parameters:

* the environment variables (`Env`, four optional strings — a missing one
  makes `os.environ[...]` raise `KeyError`);
* the fresh random UUID of the invocation (`uuidStr`, the value of
  `str(uuid.uuid4())`; the code calls `uuid.uuid4()` at most once per
  request);
* the external Cosmos DB container, modelled as the list of stored
  documents plus a flag saying whether the database/container resource
  exists (when it does not, store operations raise
  `CosmosResourceNotFoundError`).

Python exceptions are modelled with `Except PyError`; the two `except`
clauses at the bottom of `main` become the final `match` in `main`.
-/

namespace RegistrosWeb

/-- A JSON value, as produced by `req.get_json()` (Python's `json` module):
`null`, booleans, numbers (integral here), strings, arrays, and objects kept
as key/value lists in insertion order (Python dicts preserve insertion
order, and parsed JSON objects have pairwise distinct keys). -/
inductive Json where
  | null : Json
  | bool : Bool → Json
  | num : Int → Json
  | str : String → Json
  | arr : List Json → Json
  | obj : List (String × Json) → Json

/-- The Python exceptions the handler can see: `ValueError` (bad JSON body),
`TypeError` (dict operations on a non-dict), `AttributeError` (`.replace` on
a non-string), `KeyError` (missing environment variable or dict key), and
`CosmosResourceNotFoundError` from the store. -/
inductive PyError where
  | valueError : PyError
  | typeError : PyError
  | attrError : PyError
  | keyError : String → PyError
  | cosmosNotFound : PyError

/-- `func.HttpRequest`: the HTTP method, and the result of `req.get_json()`
(`none` models a body that is not valid JSON, on which `get_json` raises
`ValueError`). -/
structure HttpRequest where
  method : String
  body : Option Json

/-- `func.HttpResponse`: body text, status code, and mimetype (`none` is the
plain-text default; the code passes `application/json` only for GET
success). -/
structure HttpResponse where
  body : String
  status_code : Nat
  mimetype : Option String

/-- The four environment variables read by the handler; `none` means the
variable is absent from the environment. -/
structure Env where
  cosmos_endpoint : Option String
  cosmos_key : Option String
  cosmos_database : Option String
  cosmos_container : Option String

/-- Exception-propagating sequencing, Python style: an exception in the
first step aborts the rest. -/
def pyBind {α β : Type} (x : Except PyError α) (f : α → Except PyError β) :
    Except PyError β :=
  match x with
  | .error e => .error e
  | .ok a => f a

/-- Python `str.lower()` (ASCII case folding, which is all HTTP method
names need), character by character. -/
def strLower (s : String) : String :=
  ⟨s.data.map Char.toLower⟩

/-- Python `s.replace(c, d)` for a single-character pattern and
replacement, as in the sanitization of `uid` and `timestamp`: every
occurrence of `c` becomes `d`. -/
def replaceChar (s : String) (c d : Char) : String :=
  ⟨s.data.map (fun a => if a = c then d else a)⟩

/-- Python `s[:n]`: the first `n` characters. -/
def strTake (s : String) (n : Nat) : String :=
  ⟨s.data.take n⟩

/-- Strict lexicographic comparison of character lists by code point —
Python's `<` on strings, and the order underlying the store's
`ORDER BY c.timestamp DESC`. -/
def charsLt : List Char → List Char → Bool
  | [], [] => false
  | [], _ :: _ => true
  | _ :: _, [] => false
  | a :: as, b :: bs => if a < b then true else if b < a then false else charsLt as bs

/-- Strict lexicographic order on strings. -/
def strLt (s t : String) : Bool :=
  charsLt s.data t.data

/-- First value bound to `key` in an association list (Python dict lookup;
parsed JSON dicts have distinct keys). -/
def findVal (kvs : List (String × Json)) (key : String) : Option Json :=
  (kvs.find? (fun kv => kv.1 = key)).map Prod.snd

/-- Whether `key` occurs among the keys of the association list. -/
def keyAny (kvs : List (String × Json)) (key : String) : Bool :=
  kvs.any (fun kv => kv.1 = key)

/-- Dict assignment `d[key] = v`: replace the binding in place if the key
exists (CPython dicts keep the original position), else append it. -/
def setKV : List (String × Json) → String → Json → List (String × Json)
  | [], key, v => [(key, v)]
  | kv :: rest, key, v =>
    if kv.1 = key then (key, v) :: rest else kv :: setKV rest key v

/-- Whether `sub` occurs as a contiguous run somewhere in the list. -/
def subOccurs (sub : List Char) : List Char → Bool
  | [] => sub.isEmpty
  | c :: rest => List.isPrefixOf sub (c :: rest) || subOccurs sub rest

/-- Python substring test `sub in s` for strings (used when the parsed body
is a `str`). -/
def strContains (s sub : String) : Bool :=
  subOccurs sub.data s.data

/-- Python `key in data`: key membership for dicts, element equality for
lists (only a string element can equal a string key), substring test for
strings, and `TypeError` for non-iterable values. -/
def pyContains (data : Json) (key : String) : Except PyError Bool :=
  match data with
  | .obj kvs => .ok (keyAny kvs key)
  | .arr xs => .ok (xs.any (fun j => match j with | .str s => s = key | _ => false))
  | .str s => .ok (strContains s key)
  | _ => .error .typeError

/-- Python `data[key]` with a string key: dict lookup (`KeyError` when
absent), `TypeError` on lists, strings and scalars. -/
def pyGetItem (data : Json) (key : String) : Except PyError Json :=
  match data with
  | .obj kvs =>
    match findVal kvs key with
    | some v => .ok v
    | none => .error (.keyError key)
  | _ => .error .typeError

/-- Python `data[key] = v` with a string key: dict assignment; `TypeError`
on any non-dict value. -/
def pySetItem (data : Json) (key : String) (v : Json) : Except PyError Json :=
  match data with
  | .obj kvs => .ok (.obj (setKV kvs key v))
  | _ => .error .typeError

/-- The receiver of `.replace(...)` must be a string; on any other value
Python raises `AttributeError`. -/
def asPyStr (j : Json) : Except PyError String :=
  match j with
  | .str s => .ok s
  | _ => .error .attrError

/-- `os.environ[name]`: the value, or `KeyError` when the variable is
absent. -/
def getEnvVar (v : Option String) (name : String) : Except PyError String :=
  match v with
  | some s => .ok s
  | none => .error (.keyError name)

/-- The four `os.environ[...]` reads, in source order: endpoint, key,
database name, container name. -/
def readEnv (env : Env) : Except PyError (String × String × String × String) :=
  pyBind (getEnvVar env.cosmos_endpoint "COSMOS_ENDPOINT") fun e =>
  pyBind (getEnvVar env.cosmos_key "COSMOS_KEY") fun k =>
  pyBind (getEnvVar env.cosmos_database "COSMOS_DATABASE") fun d =>
  pyBind (getEnvVar env.cosmos_container "COSMOS_CONTAINER") fun c =>
  .ok (e, k, d, c)

/-- Step 2 of the POST branch (lines 32-38 of the source): derive or keep
the `id` field of the parsed body, mutating the parsed object.  `uuidStr`
is `str(uuid.uuid4())` for this invocation. -/
def assignId (data : Json) (uuidStr : String) : Except PyError Json :=
  pyBind (pyContains data "uid") fun hasUid =>
  pyBind (if hasUid then pyContains data "timestamp" else .ok false) fun both =>
  if both then
    pyBind (pyGetItem data "uid") fun uidJ =>
    pyBind (asPyStr uidJ) fun uidS =>
    pyBind (pyGetItem data "timestamp") fun tsJ =>
    pyBind (asPyStr tsJ) fun tsS =>
    let clean_uid :=
      replaceChar (replaceChar (replaceChar (replaceChar uidS '/' '_') '\\' '_') '#' '_') '?' '_'
    let clean_timestamp :=
      replaceChar (replaceChar (replaceChar tsS ' ' '_') ':' '-') '.' '_'
    pySetItem data "id"
      (.str (clean_uid ++ "-" ++ clean_timestamp ++ "-" ++ strTake uuidStr 8))
  else
    pyBind (pyContains data "id") fun hasId =>
    if hasId then .ok data
    else pySetItem data "id" (.str uuidStr)

/-- The `timestamp` field of a stored document, when it is a string. -/
def tsOf (d : Json) : Option String :=
  match d with
  | .obj kvs =>
    match findVal kvs "timestamp" with
    | some (.str s) => some s
    | _ => none
  | _ => none

/-- Keep the candidate with the larger timestamp; ties keep the earlier
one. -/
def pickBest (b y : String × Json) : String × Json :=
  if strLt b.1 y.1 then y else b

/-- Modelled from the spec: the external store's evaluation of the query
`SELECT TOP 1 * FROM c ORDER BY c.timestamp DESC` across all partitions —
the documents are ordered by their `timestamp` string descending
(lexicographic string sort) and the first is returned; documents without a
string `timestamp` are not ordered and an empty container yields an empty
result set. -/
def queryTop1 (store : List Json) : List Json :=
  let withTs := store.filterMap (fun d => (tsOf d).map (fun t => (t, d)))
  match withTs with
  | [] => []
  | x :: xs => [(xs.foldl pickBest x).2]

/-- Escaping of one character as `json.dumps` does for the backslash and
the double quote (the characters relevant here; control characters do not
occur in the stored fields considered). -/
def escChar (c : Char) : List Char :=
  if c = '\\' then ['\\', '\\'] else if c = '"' then ['\\', '"'] else [c]

/-- A string quoted and escaped as by `json.dumps`. -/
def jsonEscape (s : String) : String :=
  "\"" ++ String.mk (s.data.map escChar).flatten ++ "\""

mutual

/-- `json.dumps` with its default separators (`", "` and `": "`), keys in
insertion order. -/
def dumps : Json → String
  | .null => "null"
  | .bool true => "true"
  | .bool false => "false"
  | .num n => toString n
  | .str s => jsonEscape s
  | .arr xs => "[" ++ dumpsList xs ++ "]"
  | .obj kvs => "\x7b" ++ dumpsObj kvs ++ "\x7d"

/-- Array elements joined by `", "`. -/
def dumpsList : List Json → String
  | [] => ""
  | [x] => dumps x
  | x :: y :: xs => dumps x ++ ", " ++ dumpsList (y :: xs)

/-- Object entries `"key": value` joined by `", "`. -/
def dumpsObj : List (String × Json) → String
  | [] => ""
  | [kv] => jsonEscape kv.1 ++ ": " ++ dumps kv.2
  | kv :: kv2 :: kvs => jsonEscape kv.1 ++ ": " ++ dumps kv.2 ++ ", " ++ dumpsObj (kv2 :: kvs)

end

/-- The body of the `try` block of `main`: dispatch on the lowercased HTTP
method, handle POST (parse, assign `id`, read config, insert) and GET (read
config, query latest, serialize), 405 otherwise.  Returns the response
together with the store contents after the call. -/
def mainBody (env : Env) (uuidStr : String) (storeAvailable : Bool)
    (store : List Json) (req : HttpRequest) :
    Except PyError (HttpResponse × List Json) :=
  let http_method := strLower req.method
  if http_method = "post" then
    match req.body with
    | none => .ok (⟨"Cuerpo inválido – envía un JSON válido", 400, none⟩, store)
    | some data =>
      pyBind (assignId data uuidStr) fun data =>
      pyBind (pyGetItem data "id") fun _ =>
      pyBind (readEnv env) fun _ =>
      if storeAvailable then
        .ok (⟨"Lectura guardada correctamente.", 200, none⟩, store ++ [data])
      else .error .cosmosNotFound
  else if http_method = "get" then
    pyBind (readEnv env) fun _ =>
    if storeAvailable then
      match queryTop1 store with
      | [] => .ok (⟨"No hay lecturas disponibles.", 404, none⟩, store)
      | latest :: _ =>
        .ok (⟨dumps latest, 200, some "application/json"⟩, store)
    else .error .cosmosNotFound
  else
    .ok (⟨"Método HTTP no soportado. Usa POST para guardar o GET para obtener la última lectura.", 405, none⟩, store)

/-- The handler `main`, outer exception boundary included:
`CosmosResourceNotFoundError` maps to the configuration-error 500, every
other exception to the generic 500; either way the store is untouched. -/
def main (env : Env) (uuidStr : String) (storeAvailable : Bool)
    (store : List Json) (req : HttpRequest) : HttpResponse × List Json :=
  match mainBody env uuidStr storeAvailable store req with
  | .ok r => r
  | .error .cosmosNotFound =>
    (⟨"Error de configuración de Cosmos DB.", 500, none⟩, store)
  | .error _ => (⟨"Error interno del servidor.", 500, none⟩, store)

/-! ### Association-list lemmas -/

theorem findVal_nil (k : String) : findVal [] k = none := rfl

theorem findVal_cons (kv : String × Json) (rest : List (String × Json))
    (k : String) :
    findVal (kv :: rest) k = if kv.1 = k then some kv.2 else findVal rest k := by
  by_cases h : kv.1 = k <;> simp [findVal, List.find?, h]

theorem keyAny_eq_isSome (kvs : List (String × Json)) (k : String) :
    keyAny kvs k = (findVal kvs k).isSome := by
  induction kvs with
  | nil => rfl
  | cons kv rest ih =>
    by_cases h : kv.1 = k
    · simp [keyAny, findVal_cons, h]
    · simpa [keyAny, findVal_cons, h] using ih

theorem findVal_setKV_self (kvs : List (String × Json)) (k : String) (v : Json) :
    findVal (setKV kvs k v) k = some v := by
  induction kvs with
  | nil => simp [setKV, findVal_cons]
  | cons kv rest ih =>
    by_cases h : kv.1 = k
    · simp [setKV, h, findVal_cons]
    · simp [setKV, h, findVal_cons, ih]

theorem findVal_setKV_ne (kvs : List (String × Json)) (k k' : String) (v : Json)
    (h : k' ≠ k) : findVal (setKV kvs k v) k' = findVal kvs k' := by
  induction kvs with
  | nil => simp [setKV, findVal_cons, findVal_nil, Ne.symm h]
  | cons kv rest ih =>
    by_cases hk : kv.1 = k
    · simp [setKV, hk, findVal_cons, Ne.symm h]
    · simp [setKV, hk, findVal_cons, ih]

/-! ### Dispatch is a function of the lowercased method -/

theorem main_method_congr (env : Env) (u : String) (avail : Bool)
    (store : List Json) (b : Option Json) (m₁ m₂ : String)
    (h : strLower m₁ = strLower m₂) :
    main env u avail store ⟨m₁, b⟩ = main env u avail store ⟨m₂, b⟩ := by
  simp only [main, mainBody, h]

/-- Claim C4: a POST whose body is not valid JSON gets a 400 plain-text
response ("Cuerpo inválido – envía un JSON válido", no mimetype set) and
the store is left unchanged — nothing is inserted. -/
theorem post_invalid_json_400 (env : Env) (u : String) (avail : Bool)
    (store : List Json) (m : String) (hm : strLower m = "post") :
    main env u avail store ⟨m, none⟩ =
      (⟨"Cuerpo inválido – envía un JSON válido", 400, none⟩, store) := by
  simp [main, mainBody, hm]

/-- Witness for C4 at method `POST` with an unparseable body. -/
theorem post_invalid_json_400_witness :
    main ⟨some "e", some "k", some "db", some "c"⟩ "u" true [] ⟨"POST", none⟩ =
      (⟨"Cuerpo inválido – envía un JSON válido", 400, none⟩, []) :=
  post_invalid_json_400 ⟨some "e", some "k", some "db", some "c"⟩ "u" true []
    "POST" (by decide)

/-- Claim C6: any method that is neither POST nor GET after lowercasing
gets a 405 plain-text response whose message mentions both POST and GET,
with the store untouched; and dispatch is case-insensitive — two methods
with the same lowercasing are handled identically. -/
theorem method_405_and_case_insensitive (env : Env) (u : String) (avail : Bool)
    (store : List Json) (m : String) (b : Option Json)
    (h1 : strLower m ≠ "post") (h2 : strLower m ≠ "get") :
    main env u avail store ⟨m, b⟩ =
      (⟨"Método HTTP no soportado. Usa POST para guardar o GET para obtener la última lectura.", 405, none⟩, store)
    ∧ strContains "Método HTTP no soportado. Usa POST para guardar o GET para obtener la última lectura." "POST" = true
    ∧ strContains "Método HTTP no soportado. Usa POST para guardar o GET para obtener la última lectura." "GET" = true
    ∧ ∀ m₁ m₂ : String, strLower m₁ = strLower m₂ →
        main env u avail store ⟨m₁, b⟩ = main env u avail store ⟨m₂, b⟩ := by
  refine ⟨?_, by decide, by decide, ?_⟩
  · simp [main, mainBody, h1, h2]
  · intro m₁ m₂ h
    exact main_method_congr env u avail store b m₁ m₂ h

/-- Witness for C6 at method `PUT` (and the case-insensitivity conjunct at
`Post` vs `POST`). -/
theorem method_405_and_case_insensitive_witness :
    main ⟨some "e", some "k", some "db", some "c"⟩ "u" true [] ⟨"PUT", none⟩ =
      (⟨"Método HTTP no soportado. Usa POST para guardar o GET para obtener la última lectura.", 405, none⟩, [])
    ∧ main ⟨some "e", some "k", some "db", some "c"⟩ "u" true [] ⟨"Post", none⟩ =
      main ⟨some "e", some "k", some "db", some "c"⟩ "u" true [] ⟨"POST", none⟩ := by
  have h := method_405_and_case_insensitive ⟨some "e", some "k", some "db", some "c"⟩
    "u" true [] "PUT" none (by decide) (by decide)
  exact ⟨h.1, h.2.2.2 "Post" "POST" (by decide)⟩

/-- Claim C5: a GET for which the store query comes back empty gets a 404
plain-text response "No hay lecturas disponibles." (no JSON mimetype), with
the store untouched. -/
theorem get_empty_404 (e k dbn cn u : String) (store : List Json)
    (m : String) (b : Option Json)
    (hm : strLower m = "get") (hq : queryTop1 store = []) :
    main ⟨some e, some k, some dbn, some cn⟩ u true store ⟨m, b⟩ =
      (⟨"No hay lecturas disponibles.", 404, none⟩, store) := by
  simp [main, mainBody, readEnv, getEnvVar, pyBind, hm, hq]

/-- Witness for C5 at method `GET` on the empty store. -/
theorem get_empty_404_witness :
    main ⟨some "e", some "k", some "db", some "c"⟩ "u" true [] ⟨"GET", none⟩ =
      (⟨"No hay lecturas disponibles.", 404, none⟩, []) :=
  get_empty_404 "e" "k" "db" "c" "u" [] "GET" none (by decide) rfl

/-! ### The POST pipeline on objects -/

theorem pyGetItem_setKV (kvs : List (String × Json)) (k : String) (v : Json) :
    pyGetItem (Json.obj (setKV kvs k v)) k = .ok v := by
  simp [pyGetItem, findVal_setKV_self]

theorem keyAny_true_of_findVal (kvs : List (String × Json)) (k : String)
    (v : Json) (h : findVal kvs k = some v) : keyAny kvs k = true := by
  rw [keyAny_eq_isSome, h]; rfl

theorem assignId_both (kvs : List (String × Json)) (u t uuidStr : String)
    (hu : findVal kvs "uid" = some (Json.str u))
    (ht : findVal kvs "timestamp" = some (Json.str t)) :
    assignId (Json.obj kvs) uuidStr =
      .ok (Json.obj (setKV kvs "id" (Json.str (
        replaceChar (replaceChar (replaceChar (replaceChar u '/' '_') '\\' '_') '#' '_') '?' '_'
        ++ "-" ++ replaceChar (replaceChar (replaceChar t ' ' '_') ':' '-') '.' '_'
        ++ "-" ++ strTake uuidStr 8)))) := by
  have hku := keyAny_true_of_findVal kvs "uid" _ hu
  have hkt := keyAny_true_of_findVal kvs "timestamp" _ ht
  simp [assignId, pyBind, pyContains, pyGetItem, pySetItem, asPyStr, hku, hkt,
    hu, ht]

theorem assignId_not_both (kvs : List (String × Json)) (uuidStr : String)
    (hnb : keyAny kvs "uid" = false ∨ keyAny kvs "timestamp" = false) :
    assignId (Json.obj kvs) uuidStr =
      .ok (if keyAny kvs "id" = true then Json.obj kvs
           else Json.obj (setKV kvs "id" (Json.str uuidStr))) := by
  rcases hnb with h | h
  · cases hid : keyAny kvs "id" <;>
      simp [assignId, pyBind, pyContains, pySetItem, h, hid]
  · cases hu : keyAny kvs "uid" <;> cases hid : keyAny kvs "id" <;>
      simp [assignId, pyBind, pyContains, pySetItem, h, hu, hid]

theorem post_insert (e k dbn cn uuidStr : String) (store : List Json)
    (m : String) (data d v : Json) (hm : strLower m = "post")
    (ha : assignId data uuidStr = .ok d) (hv : pyGetItem d "id" = .ok v) :
    main ⟨some e, some k, some dbn, some cn⟩ uuidStr true store ⟨m, some data⟩ =
      (⟨"Lectura guardada correctamente.", 200, none⟩, store ++ [d]) := by
  simp [main, mainBody, pyBind, readEnv, getEnvVar, hm, ha, hv]

/-- Claim C1: on a POST whose JSON-object body has string `uid` and string
`timestamp`, the handler overwrites `id` with
`clean_uid ++ "-" ++ clean_timestamp ++ "-" ++ (first 8 chars of the fresh
UUID)`, where `clean_uid` replaces each of `/`, `\`, `#`, `?` by `_` and
`clean_timestamp` replaces each space and `.` by `_` and each `:` by `-`;
the document stored is the input with exactly that `id`. -/
theorem post_id_from_uid_timestamp (kvs : List (String × Json))
    (u t uuidStr e k dbn cn : String) (store : List Json) (m : String)
    (hm : strLower m = "post")
    (hu : findVal kvs "uid" = some (Json.str u))
    (ht : findVal kvs "timestamp" = some (Json.str t)) :
    main ⟨some e, some k, some dbn, some cn⟩ uuidStr true store
        ⟨m, some (Json.obj kvs)⟩ =
      (⟨"Lectura guardada correctamente.", 200, none⟩,
       store ++ [Json.obj (setKV kvs "id" (Json.str (
         replaceChar (replaceChar (replaceChar (replaceChar u '/' '_') '\\' '_') '#' '_') '?' '_'
         ++ "-" ++ replaceChar (replaceChar (replaceChar t ' ' '_') ':' '-') '.' '_'
         ++ "-" ++ strTake uuidStr 8)))]) :=
  post_insert e k dbn cn uuidStr store m _ _ _ hm
    (assignId_both kvs u t uuidStr hu ht) (pyGetItem_setKV kvs "id" _)

/-- Witness for C1: a concrete reading with `uid` `"AB/CD#1"`, timestamp
`"2024-01-02 10:20:30.5"`, an extra field, an `id` that gets overwritten,
and a concrete UUID. -/
theorem post_id_from_uid_timestamp_witness :
    main ⟨some "e", some "k", some "db", some "c"⟩
        "123e4567-e89b-12d3-a456-426614174000" true []
        ⟨"POST", some (Json.obj [("uid", Json.str "AB/CD#1"),
          ("timestamp", Json.str "2024-01-02 10:20:30.5"),
          ("id", Json.str "stale"), ("x", Json.num 7)])⟩ =
      (⟨"Lectura guardada correctamente.", 200, none⟩,
       [Json.obj [("uid", Json.str "AB/CD#1"),
          ("timestamp", Json.str "2024-01-02 10:20:30.5"),
          ("id", Json.str "AB_CD_1-2024-01-02_10-20-30_5-123e4567"),
          ("x", Json.num 7)]]) := by
  have h := post_id_from_uid_timestamp
    [("uid", Json.str "AB/CD#1"), ("timestamp", Json.str "2024-01-02 10:20:30.5"),
     ("id", Json.str "stale"), ("x", Json.num 7)]
    "AB/CD#1" "2024-01-02 10:20:30.5" "123e4567-e89b-12d3-a456-426614174000"
    "e" "k" "db" "c" [] "POST" (by decide) rfl rfl
  exact h.trans rfl

/-- Claim C3: on a POST whose JSON-object body lacks `uid` or lacks
`timestamp`, an already-present `id` is kept (the document is stored
unchanged), and otherwise `id` is set to the full fresh UUID string. -/
theorem post_id_passthrough_or_uuid (kvs : List (String × Json))
    (uuidStr e k dbn cn : String) (store : List Json) (m : String)
    (hm : strLower m = "post")
    (hnb : keyAny kvs "uid" = false ∨ keyAny kvs "timestamp" = false) :
    main ⟨some e, some k, some dbn, some cn⟩ uuidStr true store
        ⟨m, some (Json.obj kvs)⟩ =
      (⟨"Lectura guardada correctamente.", 200, none⟩,
       store ++ [if keyAny kvs "id" = true then Json.obj kvs
                 else Json.obj (setKV kvs "id" (Json.str uuidStr))]) := by
  have ha := assignId_not_both kvs uuidStr hnb
  by_cases hid : keyAny kvs "id" = true
  · simp only [hid, if_true] at ha ⊢
    obtain ⟨v, hv⟩ := Option.isSome_iff_exists.mp
      (by rw [← keyAny_eq_isSome, hid])
    exact post_insert e k dbn cn uuidStr store m _ _ v hm ha
      (by simp [pyGetItem, hv])
  · simp only [hid, if_false] at ha ⊢
    exact post_insert e k dbn cn uuidStr store m _ _ _ hm ha
      (pyGetItem_setKV kvs "id" _)

/-- Witness for C3: one POST that keeps an existing `id`, one that gets the
full UUID. -/
theorem post_id_passthrough_or_uuid_witness :
    main ⟨some "e", some "k", some "db", some "c"⟩
        "123e4567-e89b-12d3-a456-426614174000" true []
        ⟨"POST", some (Json.obj [("id", Json.str "keep"), ("uid", Json.str "A")])⟩ =
      (⟨"Lectura guardada correctamente.", 200, none⟩,
       [Json.obj [("id", Json.str "keep"), ("uid", Json.str "A")]])
    ∧ main ⟨some "e", some "k", some "db", some "c"⟩
        "123e4567-e89b-12d3-a456-426614174000" true []
        ⟨"POST", some (Json.obj [("v", Json.num 1)])⟩ =
      (⟨"Lectura guardada correctamente.", 200, none⟩,
       [Json.obj [("v", Json.num 1),
          ("id", Json.str "123e4567-e89b-12d3-a456-426614174000")]]) := by
  constructor
  · have h := post_id_passthrough_or_uuid
      [("id", Json.str "keep"), ("uid", Json.str "A")]
      "123e4567-e89b-12d3-a456-426614174000" "e" "k" "db" "c" [] "POST"
      (by decide) (Or.inr (by decide))
    exact h.trans rfl
  · have h := post_id_passthrough_or_uuid [("v", Json.num 1)]
      "123e4567-e89b-12d3-a456-426614174000" "e" "k" "db" "c" [] "POST"
      (by decide) (Or.inl (by decide))
    exact h.trans rfl

theorem assignId_obj_ok_nb (kvs : List (String × Json)) (uuidStr : String)
    (hnb : keyAny kvs "uid" = false ∨ keyAny kvs "timestamp" = false) :
    ∃ kvs' v, assignId (Json.obj kvs) uuidStr = .ok (Json.obj kvs')
      ∧ findVal kvs' "id" = some v
      ∧ ∀ key, key ≠ "id" → findVal kvs' key = findVal kvs key := by
  have ha := assignId_not_both kvs uuidStr hnb
  by_cases hid : keyAny kvs "id" = true
  · simp only [hid, if_true] at ha
    obtain ⟨v, hv⟩ := Option.isSome_iff_exists.mp
      (by rw [← keyAny_eq_isSome, hid])
    exact ⟨kvs, v, ha, hv, fun key hk => rfl⟩
  · simp only [hid, if_false] at ha
    exact ⟨_, _, ha, findVal_setKV_self kvs "id" _,
      fun key hk => findVal_setKV_ne kvs "id" key _ hk⟩

theorem assignId_obj_ok (kvs : List (String × Json)) (uuidStr : String)
    (hok : keyAny kvs "uid" = true → keyAny kvs "timestamp" = true →
      ∃ u t, findVal kvs "uid" = some (Json.str u)
        ∧ findVal kvs "timestamp" = some (Json.str t)) :
    ∃ kvs' v, assignId (Json.obj kvs) uuidStr = .ok (Json.obj kvs')
      ∧ findVal kvs' "id" = some v
      ∧ ∀ key, key ≠ "id" → findVal kvs' key = findVal kvs key := by
  by_cases hu : keyAny kvs "uid" = true
  · by_cases htk : keyAny kvs "timestamp" = true
    · obtain ⟨u, t, h1, h2⟩ := hok hu htk
      exact ⟨_, _, assignId_both kvs u t uuidStr h1 h2,
        findVal_setKV_self kvs "id" _,
        fun key hk => findVal_setKV_ne kvs "id" key _ hk⟩
    · exact assignId_obj_ok_nb kvs uuidStr (Or.inr (by simpa using htk))
  · exact assignId_obj_ok_nb kvs uuidStr (Or.inl (by simpa using hu))

/-- Claim C7: a stored POSTed object differs from the input object at most
in the `id` field — every key other than `id`, known or unknown, keeps
exactly the value it had in the input (or stays absent), and nothing else
is added.  The hypothesis asks that when both `uid` and `timestamp` keys
are present their values are strings, so that the insert is reached. -/
theorem post_preserves_other_fields (kvs : List (String × Json))
    (uuidStr e k dbn cn : String) (store : List Json) (m : String)
    (hm : strLower m = "post")
    (hok : keyAny kvs "uid" = true → keyAny kvs "timestamp" = true →
      ∃ u t, findVal kvs "uid" = some (Json.str u)
        ∧ findVal kvs "timestamp" = some (Json.str t)) :
    ∃ kvs', main ⟨some e, some k, some dbn, some cn⟩ uuidStr true store
        ⟨m, some (Json.obj kvs)⟩ =
        (⟨"Lectura guardada correctamente.", 200, none⟩,
         store ++ [Json.obj kvs'])
      ∧ ∀ key, key ≠ "id" → findVal kvs' key = findVal kvs key := by
  obtain ⟨kvs', v, ha, hv, hpres⟩ := assignId_obj_ok kvs uuidStr hok
  exact ⟨kvs', post_insert e k dbn cn uuidStr store m _ _ v hm ha
    (by simp [pyGetItem, hv]), hpres⟩

/-- Witness for C7 on a reading with `uid`, `timestamp` and an arbitrary
extra field `foo`. -/
theorem post_preserves_other_fields_witness :
    ∃ kvs', main ⟨some "e", some "k", some "db", some "c"⟩ "u1234567-z" true []
        ⟨"POST", some (Json.obj [("uid", Json.str "U"),
          ("timestamp", Json.str "2024-05-06 07:08:09"),
          ("foo", Json.str "bar")])⟩ =
        (⟨"Lectura guardada correctamente.", 200, none⟩, [] ++ [Json.obj kvs'])
      ∧ ∀ key, key ≠ "id" →
          findVal kvs' key = findVal [("uid", Json.str "U"),
            ("timestamp", Json.str "2024-05-06 07:08:09"),
            ("foo", Json.str "bar")] key :=
  post_preserves_other_fields
    [("uid", Json.str "U"), ("timestamp", Json.str "2024-05-06 07:08:09"),
     ("foo", Json.str "bar")]
    "u1234567-z" "e" "k" "db" "c" [] "POST" (by decide)
    (fun _ _ => ⟨"U", "2024-05-06 07:08:09", rfl, rfl⟩)

/-- Claim C8: when the store's database/container resource does not exist,
both GET and a well-formed POST surface `CosmosResourceNotFoundError`,
which the handler catches separately, answering 500 with the
configuration-error message — a message distinct from the generic
internal-error one; the store is untouched. -/
theorem store_resource_missing_500 (e k dbn cn uuidStr : String)
    (store : List Json) (kvs : List (String × Json)) (m₁ m₂ : String)
    (bg : Option Json)
    (hg : strLower m₁ = "get") (hp : strLower m₂ = "post")
    (hok : keyAny kvs "uid" = true → keyAny kvs "timestamp" = true →
      ∃ u t, findVal kvs "uid" = some (Json.str u)
        ∧ findVal kvs "timestamp" = some (Json.str t)) :
    main ⟨some e, some k, some dbn, some cn⟩ uuidStr false store ⟨m₁, bg⟩ =
      (⟨"Error de configuración de Cosmos DB.", 500, none⟩, store)
    ∧ main ⟨some e, some k, some dbn, some cn⟩ uuidStr false store
        ⟨m₂, some (Json.obj kvs)⟩ =
      (⟨"Error de configuración de Cosmos DB.", 500, none⟩, store)
    ∧ ("Error de configuración de Cosmos DB." : String) ≠
        "Error interno del servidor." := by
  refine ⟨?_, ?_, by decide⟩
  · simp [main, mainBody, pyBind, readEnv, getEnvVar, hg]
  · obtain ⟨kvs', v, ha, hv, _⟩ := assignId_obj_ok kvs uuidStr hok
    simp [main, mainBody, pyBind, readEnv, getEnvVar, hp, ha, pyGetItem, hv]

/-- Witness for C8: GET and a plain POST against a missing container. -/
theorem store_resource_missing_500_witness :
    main ⟨some "e", some "k", some "db", some "c"⟩ "u" false [] ⟨"GET", none⟩ =
      (⟨"Error de configuración de Cosmos DB.", 500, none⟩, [])
    ∧ main ⟨some "e", some "k", some "db", some "c"⟩ "u" false []
        ⟨"POST", some (Json.obj [("v", Json.num 1)])⟩ =
      (⟨"Error de configuración de Cosmos DB.", 500, none⟩, [])
    ∧ ("Error de configuración de Cosmos DB." : String) ≠
        "Error interno del servidor." :=
  store_resource_missing_500 "e" "k" "db" "c" "u" [] [("v", Json.num 1)]
    "GET" "POST" none (by decide) (by decide)
    (fun h _ => absurd h (by decide))

theorem readEnv_missing (env : Env)
    (hmiss : env.cosmos_endpoint = none ∨ env.cosmos_key = none
      ∨ env.cosmos_database = none ∨ env.cosmos_container = none) :
    ∃ name, readEnv env = .error (.keyError name) := by
  rcases env with ⟨eo, ko, dbo, co⟩
  rcases eo with _ | e
  · exact ⟨"COSMOS_ENDPOINT", rfl⟩
  rcases ko with _ | k
  · exact ⟨"COSMOS_KEY", rfl⟩
  rcases dbo with _ | d
  · exact ⟨"COSMOS_DATABASE", rfl⟩
  rcases co with _ | c
  · exact ⟨"COSMOS_CONTAINER", rfl⟩
  · simp at hmiss

/-- Claim C9: a missing configuration value (any of the four) raises
`KeyError`, which no specific handler catches: both GET and a well-formed
POST fall through to the outermost catch-all and answer 500 with the
generic internal-error message — not the configuration-error one — and
nothing is inserted. -/
theorem missing_config_generic_500 (env : Env) (uuidStr : String)
    (avail : Bool) (store : List Json) (kvs : List (String × Json))
    (m₁ m₂ : String) (bg : Option Json)
    (hg : strLower m₁ = "get") (hp : strLower m₂ = "post")
    (hmiss : env.cosmos_endpoint = none ∨ env.cosmos_key = none
      ∨ env.cosmos_database = none ∨ env.cosmos_container = none)
    (hok : keyAny kvs "uid" = true → keyAny kvs "timestamp" = true →
      ∃ u t, findVal kvs "uid" = some (Json.str u)
        ∧ findVal kvs "timestamp" = some (Json.str t)) :
    main env uuidStr avail store ⟨m₁, bg⟩ =
      (⟨"Error interno del servidor.", 500, none⟩, store)
    ∧ main env uuidStr avail store ⟨m₂, some (Json.obj kvs)⟩ =
      (⟨"Error interno del servidor.", 500, none⟩, store) := by
  obtain ⟨name, hre⟩ := readEnv_missing env hmiss
  constructor
  · simp [main, mainBody, pyBind, hg, hre]
  · obtain ⟨kvs', v, ha, hv, _⟩ := assignId_obj_ok kvs uuidStr hok
    simp [main, mainBody, pyBind, hp, ha, pyGetItem, hv, hre]

/-- Witness for C9: the key variable is missing; GET and a plain POST. -/
theorem missing_config_generic_500_witness :
    main ⟨some "e", none, some "db", some "c"⟩ "u" true [] ⟨"GET", none⟩ =
      (⟨"Error interno del servidor.", 500, none⟩, [])
    ∧ main ⟨some "e", none, some "db", some "c"⟩ "u" true []
        ⟨"POST", some (Json.obj [("v", Json.num 1)])⟩ =
      (⟨"Error interno del servidor.", 500, none⟩, []) :=
  missing_config_generic_500 ⟨some "e", none, some "db", some "c"⟩ "u" true []
    [("v", Json.num 1)] "GET" "POST" none (by decide) (by decide)
    (Or.inr (Or.inl rfl)) (fun h _ => absurd h (by decide))

theorem assignId_non_obj (j : Json) (uuidStr : String)
    (hno : ∀ kvs, j ≠ Json.obj kvs) :
    assignId j uuidStr = .error .typeError ∨
      (assignId j uuidStr = .ok j ∧ pyGetItem j "id" = .error .typeError) := by
  cases j with
  | obj kvs => exact absurd rfl (hno kvs)
  | null => exact Or.inl rfl
  | bool b => exact Or.inl rfl
  | num n => exact Or.inl rfl
  | str s =>
    by_cases h1 : strContains s "uid" = true
    · by_cases h2 : strContains s "timestamp" = true
      · exact Or.inl (by simp [assignId, pyBind, pyContains, pyGetItem, h1, h2])
      · by_cases h3 : strContains s "id" = true
        · exact Or.inr ⟨by simp [assignId, pyBind, pyContains, h1, h2, h3], rfl⟩
        · exact Or.inl (by simp [assignId, pyBind, pyContains, pySetItem, h1, h2, h3])
    · by_cases h3 : strContains s "id" = true
      · exact Or.inr ⟨by simp [assignId, pyBind, pyContains, h1, h3], rfl⟩
      · exact Or.inl (by simp [assignId, pyBind, pyContains, pySetItem, h1, h3])
  | arr xs =>
    by_cases h1 : (xs.any (fun j => match j with | .str s => s = "uid" | _ => false)) = true
    · by_cases h2 : (xs.any (fun j => match j with | .str s => s = "timestamp" | _ => false)) = true
      · exact Or.inl (by simp [assignId, pyBind, pyContains, pyGetItem, h1, h2])
      · by_cases h3 : (xs.any (fun j => match j with | .str s => s = "id" | _ => false)) = true
        · exact Or.inr ⟨by simp [assignId, pyBind, pyContains, h1, h2, h3], rfl⟩
        · exact Or.inl (by simp [assignId, pyBind, pyContains, pySetItem, h1, h2, h3])
    · by_cases h3 : (xs.any (fun j => match j with | .str s => s = "id" | _ => false)) = true
      · exact Or.inr ⟨by simp [assignId, pyBind, pyContains, h1, h3], rfl⟩
      · exact Or.inl (by simp [assignId, pyBind, pyContains, pySetItem, h1, h3])

/-- Claim C10: a POST whose body is valid JSON but not an object (number,
string, boolean, null or array) is not answered 400: the dict operations on
the value raise `TypeError`, the outermost catch-all answers 500 with the
generic internal-error message, and nothing is inserted. -/
theorem post_non_object_500 (env : Env) (uuidStr : String) (avail : Bool)
    (store : List Json) (m : String) (j : Json)
    (hm : strLower m = "post") (hno : ∀ kvs, j ≠ Json.obj kvs) :
    main env uuidStr avail store ⟨m, some j⟩ =
      (⟨"Error interno del servidor.", 500, none⟩, store) := by
  rcases assignId_non_obj j uuidStr hno with h | ⟨h1, h2⟩
  · simp [main, mainBody, pyBind, hm, h]
  · simp [main, mainBody, pyBind, hm, h1, h2]

/-- Witness for C10: three non-object bodies, a number, a string that even
contains `"id"` as a substring, and an array containing the strings
`"uid"` and `"timestamp"`. -/
theorem post_non_object_500_witness :
    main ⟨some "e", some "k", some "db", some "c"⟩ "u" true [] ⟨"POST", some (Json.num 3)⟩ =
      (⟨"Error interno del servidor.", 500, none⟩, [])
    ∧ main ⟨some "e", some "k", some "db", some "c"⟩ "u" true [] ⟨"POST", some (Json.str "idyllic")⟩ =
      (⟨"Error interno del servidor.", 500, none⟩, [])
    ∧ main ⟨some "e", some "k", some "db", some "c"⟩ "u" true []
        ⟨"POST", some (Json.arr [Json.str "uid", Json.str "timestamp"])⟩ =
      (⟨"Error interno del servidor.", 500, none⟩, []) :=
  ⟨post_non_object_500 ⟨some "e", some "k", some "db", some "c"⟩ "u" true []
      "POST" (Json.num 3) (by decide) (fun _ h => Json.noConfusion h),
   post_non_object_500 ⟨some "e", some "k", some "db", some "c"⟩ "u" true []
      "POST" (Json.str "idyllic") (by decide) (fun _ h => Json.noConfusion h),
   post_non_object_500 ⟨some "e", some "k", some "db", some "c"⟩ "u" true []
      "POST" (Json.arr [Json.str "uid", Json.str "timestamp"]) (by decide)
      (fun _ h => Json.noConfusion h)⟩

/-! ### The GET query: ordering facts -/

theorem charsLt_iff_lex : ∀ (a b : List Char),
    charsLt a b = true ↔ List.Lex (· < ·) a b
  | [], [] => by simp [charsLt]
  | [], b :: bs => ⟨fun _ => List.Lex.nil, fun _ => rfl⟩
  | a :: as, [] => by simp [charsLt]
  | a :: as, b :: bs => by
    simp only [charsLt]
    by_cases h1 : a < b
    · rw [if_pos h1]
      exact iff_of_true rfl (List.Lex.rel h1)
    · rw [if_neg h1]
      by_cases h2 : b < a
      · rw [if_pos h2]
        refine iff_of_false (by simp) ?_
        intro h
        cases h with
        | cons htail => exact absurd h2 (lt_irrefl a)
        | rel hr => exact h1 hr
      · rw [if_neg h2]
        have hab : a = b := le_antisymm (le_of_not_lt h2) (le_of_not_lt h1)
        subst hab
        constructor
        · intro h
          exact List.Lex.cons ((charsLt_iff_lex as bs).mp h)
        · intro h
          cases h with
          | cons htail => exact (charsLt_iff_lex as bs).mpr htail
          | rel hr => exact absurd hr h1

theorem strLt_iff_lex (s t : String) :
    strLt s t = true ↔ List.Lex (· < ·) s.data t.data :=
  charsLt_iff_lex s.data t.data

theorem lex_irrefl (l : List Char) : ¬ List.Lex (· < ·) l l :=
  fun h => asymm_of (List.Lex (· < ·)) h h

theorem foldl_pickBest_mem (xs : List (String × Json)) (b : String × Json) :
    xs.foldl pickBest b = b ∨ xs.foldl pickBest b ∈ xs := by
  induction xs generalizing b with
  | nil => exact Or.inl rfl
  | cons x xs ih =>
    rw [List.foldl_cons]
    rcases ih (pickBest b x) with h | h
    · rw [h]
      unfold pickBest
      by_cases hc : strLt b.1 x.1 = true
      · rw [if_pos hc]; exact Or.inr (List.mem_cons_self x xs)
      · rw [if_neg hc]; exact Or.inl rfl
    · exact Or.inr (List.mem_cons_of_mem x h)

theorem foldl_pickBest_max (xs : List (String × Json)) (b y : String × Json)
    (hy : y = b ∨ y ∈ xs) :
    ¬ List.Lex (· < ·) (xs.foldl pickBest b).1.data y.1.data := by
  induction xs generalizing b y with
  | nil =>
    rcases hy with rfl | h
    · simp only [List.foldl_nil]
      exact lex_irrefl _
    · cases h
  | cons x xs ih =>
    rw [List.foldl_cons]
    have hpb : ¬ List.Lex (· < ·) (pickBest b x).1.data b.1.data ∧
        ¬ List.Lex (· < ·) (pickBest b x).1.data x.1.data := by
      unfold pickBest
      by_cases hc : strLt b.1 x.1 = true
      · rw [if_pos hc]
        exact ⟨asymm_of (List.Lex (· < ·)) ((strLt_iff_lex _ _).mp hc),
          lex_irrefl _⟩
      · rw [if_neg hc]
        exact ⟨lex_irrefl _, fun h => hc ((strLt_iff_lex _ _).mpr h)⟩
    have hself := ih (pickBest b x) (pickBest b x) (Or.inl rfl)
    have key : ∀ z : String × Json,
        ¬ List.Lex (· < ·) (pickBest b x).1.data z.1.data →
        ¬ List.Lex (· < ·) ((xs.foldl pickBest (pickBest b x))).1.data z.1.data := by
      intro z hz hlex
      rcases IsOrderConnected.conn _ (pickBest b x).1.data _ hlex with h1 | h1
      · exact hself h1
      · exact hz h1
    rcases hy with hyb | h
    · rw [hyb]
      exact key b hpb.1
    · rcases List.mem_cons.mp h with hyx | h
      · rw [hyx]
        exact key x hpb.2
      · exact ih (pickBest b x) y (Or.inr h)

theorem queryTop1_eq_single (store : List Json) (d : Json) (t : String)
    (hmem : d ∈ store) (ht : tsOf d = some t)
    (hmax : ∀ d' ∈ store, d' ≠ d → ∃ t', tsOf d' = some t' ∧ strLt t' t = true) :
    queryTop1 store = [d] := by
  have htd : (t, d) ∈ store.filterMap (fun d => (tsOf d).map (fun t => (t, d))) :=
    List.mem_filterMap.mpr ⟨d, hmem, by rw [ht]; rfl⟩
  unfold queryTop1
  rcases hwt : store.filterMap (fun d => (tsOf d).map (fun t => (t, d)))
    with _ | ⟨x, xs⟩
  · rw [hwt] at htd; cases htd
  · rw [hwt] at htd
    show [(xs.foldl pickBest x).2] = [d]
    have hrin : xs.foldl pickBest x ∈
        store.filterMap (fun d => (tsOf d).map (fun t => (t, d))) := by
      rw [hwt]
      rcases foldl_pickBest_mem xs x with h | h
      · rw [h]; exact List.mem_cons_self x xs
      · exact List.mem_cons_of_mem x h
    obtain ⟨d', hd', he⟩ := List.mem_filterMap.mp hrin
    rcases hts : tsOf d' with _ | t'
    · rw [hts] at he; cases he
    · rw [hts] at he
      simp only [Option.map_some'] at he
      have he' := Option.some.inj he
      by_cases hdd : d' = d
      · rw [← he', hdd]
      · obtain ⟨t'', ht'', hlt⟩ := hmax d' hd' hdd
        rw [hts] at ht''
        have htt : t' = t'' := Option.some.inj ht''
        have hlex : List.Lex (· < ·) t'.data t.data := by
          rw [htt]; exact (strLt_iff_lex _ _).mp hlt
        have hmx := foldl_pickBest_max xs x (t, d)
          (by rcases List.mem_cons.mp htd with h | h
              · exact Or.inl h
              · exact Or.inr h)
        rw [← he'] at hmx
        exact absurd hlex hmx

/-- Claim C2: a GET against a store holding a document `d` whose string
`timestamp` is lexicographically strictly greater than every other stored
document's answers 200 with mimetype `application/json` and body the JSON
serialization of exactly `d`, verbatim, leaving the store untouched — the
query modelled is `SELECT TOP 1 * FROM c ORDER BY c.timestamp DESC` across
all partitions. -/
theorem get_latest_200 (e k dbn cn u : String) (store : List Json)
    (m : String) (b : Option Json) (d : Json) (t : String)
    (hm : strLower m = "get")
    (hmem : d ∈ store) (ht : tsOf d = some t)
    (hmax : ∀ d' ∈ store, d' ≠ d → ∃ t', tsOf d' = some t' ∧ strLt t' t = true) :
    main ⟨some e, some k, some dbn, some cn⟩ u true store ⟨m, b⟩ =
      (⟨dumps d, 200, some "application/json"⟩, store) := by
  have hq := queryTop1_eq_single store d t hmem ht hmax
  simp [main, mainBody, pyBind, readEnv, getEnvVar, hm, hq]

/-- Witness for C2: the spec's three-document scenario with timestamps
2024-01-01, 2024-01-02 and 2023-12-31; the 2024-01-02 document comes back
with all its fields. -/
theorem get_latest_200_witness :
    main ⟨some "e", some "k", some "db", some "c"⟩ "u" true
        [Json.obj [("id", Json.str "a"), ("timestamp", Json.str "2024-01-01 00:00:00")],
         Json.obj [("id", Json.str "b"), ("timestamp", Json.str "2024-01-02 00:00:00"), ("uid", Json.str "TAG")],
         Json.obj [("id", Json.str "c"), ("timestamp", Json.str "2023-12-31 00:00:00")]]
        ⟨"GET", none⟩ =
      (⟨dumps (Json.obj [("id", Json.str "b"),
          ("timestamp", Json.str "2024-01-02 00:00:00"), ("uid", Json.str "TAG")]),
        200, some "application/json"⟩,
       [Json.obj [("id", Json.str "a"), ("timestamp", Json.str "2024-01-01 00:00:00")],
        Json.obj [("id", Json.str "b"), ("timestamp", Json.str "2024-01-02 00:00:00"), ("uid", Json.str "TAG")],
        Json.obj [("id", Json.str "c"), ("timestamp", Json.str "2023-12-31 00:00:00")]]) := by
  refine get_latest_200 "e" "k" "db" "c" "u" _ "GET" none _
    "2024-01-02 00:00:00" (by decide)
    (List.mem_cons_of_mem _ (List.mem_cons_self _ _)) rfl ?_
  intro d' hd' hne
  rcases List.mem_cons.mp hd' with rfl | hd'
  · exact ⟨"2024-01-01 00:00:00", rfl, by decide⟩
  rcases List.mem_cons.mp hd' with rfl | hd'
  · exact absurd rfl hne
  rcases List.mem_cons.mp hd' with rfl | hd'
  · exact ⟨"2023-12-31 00:00:00", rfl, by decide⟩
  · cases hd'

end RegistrosWeb
